import Mathlib

/-!
Verification of the calorie-counter backend's food-matching and
nutrition-computation engine (`USDAService` in the TypeScript source).

Strings are modelled as Lean `String`s with JavaScript-faithful helper
operations (`toLowerCase`, `trim`, `startsWith`, `includes`,
`split(/\s+/)`); JavaScript numbers are modelled as exact rationals `ℚ`,
with `Math.round` as Mathlib's `round` (both are `⌊x + 1/2⌋`).
-/

set_option maxRecDepth 10000

attribute [local semireducible] Rat.mul Rat.add Rat.inv

/-- JS `String.prototype.toLowerCase` (per-character lowering). -/
def jsToLower (s : String) : String := ⟨s.data.map Char.toLower⟩

/-- Drop leading and trailing whitespace from a character list. -/
def trimList (l : List Char) : List Char :=
  ((l.dropWhile Char.isWhitespace).reverse.dropWhile Char.isWhitespace).reverse

/-- JS `String.prototype.trim`. -/
def jsTrim (s : String) : String := ⟨trimList s.data⟩

/-- JS `a.includes(b)` on character lists: `p` occurs as a contiguous
sublist of `s` (the empty pattern always occurs). -/
def listIncl (s p : List Char) : Bool :=
  match s with
  | [] => p.isEmpty
  | c :: t => p.isPrefixOf (c :: t) || listIncl t p

/-- JS `s.includes(p)` for strings. -/
def strIncludes (s p : String) : Bool := listIncl s.data p.data

/-- JS `s.startsWith(p)` for strings. -/
def strStarts (s p : String) : Bool := p.data.isPrefixOf s.data

mutual

/-- JS `s.split(/\s+/)`: accumulate the current token (reversed in `acc`);
a whitespace character ends the token and enters the gap state. -/
def jsSplitTok : List Char → List Char → List (List Char)
  | [], acc => [acc.reverse]
  | c :: rest, acc =>
    if c.isWhitespace then acc.reverse :: jsSplitGap rest
    else jsSplitTok rest (c :: acc)

/-- Gap state of `jsSplitTok`: skip the whitespace run; reaching the end
of input here yields a trailing empty token, exactly as JS `split`. -/
def jsSplitGap : List Char → List (List Char)
  | [] => [[]]
  | c :: rest =>
    if c.isWhitespace then jsSplitGap rest
    else jsSplitTok rest [c]

end

/-- JS `s.split(/\s+/)` on a character list. -/
def jsSplitWS (s : List Char) : List (List Char) := jsSplitTok s []

/-- `Math.round` for rationals, yielding a rational again (JS numbers do
not distinguish the two): `⌊x + 1/2⌋`, computed with `Rat.floor`. -/
def jsRound (x : ℚ) : ℚ := ((Rat.floor (x + 1 / 2) : ℤ) : ℚ)

theorem jsRound_eq_round (x : ℚ) : jsRound x = ((round x : ℤ) : ℚ) := by
  rw [jsRound, round_eq, Rat.floor_def', ← Rat.floor_def]

/-- Rounding to one decimal place: `Math.round(x * 10) / 10`. -/
def round1 (x : ℚ) : ℚ := jsRound (x * 10) / 10

deriving instance DecidableEq for Except

/-- One entry of `food.foodNutrients` (`USDAFoodNutrient`): nutrient
identifier and per-100g value. -/
structure FoodNutrient where
  nutrientId : ℤ
  value : ℚ
deriving DecidableEq

/-- One entry of `food.foodMeasures`: unit name and gram weight. -/
structure FoodMeasure where
  measureUnitName : String
  gramWeight : ℚ
deriving DecidableEq

/-- The fields of the `USDAFood` record that the engine consults. -/
structure USDAFood where
  fdcId : ℤ
  description : String
  lowercaseDescription : String
  dataType : String
  foodNutrients : List FoodNutrient
  foodMeasures : List FoodMeasure
  servingSize : Option ℚ
  servingSizeUnit : Option String
  brandOwner : Option String
  foodCategory : Option String
  publishedDate : String
deriving DecidableEq

/-- `ENERGY_NUTRIENT_IDS.ENERGY_KCAL`. -/
def ENERGY_KCAL : ℤ := 1008
/-- `ENERGY_NUTRIENT_IDS.ENERGY_KJ`. -/
def ENERGY_KJ : ℤ := 1062
/-- `MACRONUTRIENT_IDS.PROTEIN`. -/
def PROTEIN_ID : ℤ := 1003
/-- `MACRONUTRIENT_IDS.TOTAL_FAT`. -/
def TOTAL_FAT_ID : ℤ := 1004
/-- `MACRONUTRIENT_IDS.CARBS`. -/
def CARBS_ID : ℤ := 1005
/-- `MACRONUTRIENT_IDS.FIBER`. -/
def FIBER_ID : ℤ := 1079
/-- `MACRONUTRIENT_IDS.SUGARS`. -/
def SUGARS_ID : ℤ := 2000
/-- `MACRONUTRIENT_IDS.SATURATED_FAT`. -/
def SATURATED_FAT_ID : ℤ := 1258

/-- Tier-1 predicate of `findBestMatch`: exact match (case-insensitive),
`desc.toLowerCase() === normalizedQuery || lowerDesc === normalizedQuery`. -/
def exactPred (nq : String) (f : USDAFood) : Bool :=
  jsToLower f.description == nq || f.lowercaseDescription == nq

/-- Tier-2 predicate of `findBestMatch`: description starts with the query. -/
def startsPred (nq : String) (f : USDAFood) : Bool :=
  strStarts (jsToLower f.description) nq || strStarts f.lowercaseDescription nq

/-- Tier-3 predicate of `findBestMatch`: description contains the query. -/
def containsPred (nq : String) (f : USDAFood) : Bool :=
  strIncludes (jsToLower f.description) nq || strIncludes f.lowercaseDescription nq

/-- `hasCalories` inside tier-4 scoring: some nutrient sample has
`nutrientId === ENERGY_KCAL` and a positive value. -/
def hasCalories (f : USDAFood) : Bool :=
  f.foodNutrients.any (fun n => n.nutrientId == ENERGY_KCAL && decide (0 < n.value))

/-- The query words of tier-4 scoring:
`normalizedQuery.split(/\s+/).filter(word => word.length > 0)`. -/
def queryWordsOf (nq : String) : List (List Char) :=
  (jsSplitWS nq.data).filter (fun w => w.length > 0)

/-- Tier-4 score of one candidate: word-overlap fraction times 100, plus
the data-type bonus, plus the calorie-availability bonus, minus the
long-description penalty — exactly the arithmetic of the source. -/
def scoreFood (queryWords : List (List Char)) (f : USDAFood) : ℚ :=
  let foodDesc := (jsToLower f.description).data
  let foodWords := jsSplitWS foodDesc
  let matchingWords := queryWords.filter (fun q =>
    foodWords.any (fun w => listIncl w q || listIncl q w))
  ((matchingWords.length : ℚ) / (queryWords.length : ℚ)) * 100
    + (if f.dataType == "Foundation" then 20
       else if f.dataType == "SR Legacy" then 15
       else if f.dataType == "Survey (FNDDS)" then 10
       else 0)
    + (if hasCalories f then 10 else 0)
    - (if 100 < foodDesc.length then 5 else 0)

/-- Head of `scoredFoods` after the stable descending sort: the earliest
element is replaced only by a strictly greater score, so the first
occurrence of the maximum wins, as in JS stable `sort`. -/
def pickBestAux (cur : USDAFood × ℚ) : List (USDAFood × ℚ) → USDAFood × ℚ
  | [] => cur
  | x :: xs => if cur.2 < x.2 then pickBestAux x xs else pickBestAux cur xs

/-- First element of maximal score of a scored candidate list. -/
def pickBest : List (USDAFood × ℚ) → Option (USDAFood × ℚ)
  | [] => none
  | x :: xs => some (pickBestAux x xs)

/-- Tier 4 of `findBestMatch`: score every candidate, take the stable
maximum; return it if its score exceeds 20, else fall back to the first
candidate. -/
def tier4 (foods : List USDAFood) (nq : String) : Option USDAFood :=
  let queryWords := queryWordsOf nq
  let scored := foods.map (fun f => (f, scoreFood queryWords f))
  match pickBest scored with
  | some b => if 20 < b.2 then some b.1 else foods.head?
  | none => foods.head?

/-- The normalized query of `findBestMatch`:
`query.toLowerCase().trim()`. -/
def normQuery (query : String) : String := jsTrim (jsToLower query)

/-- `findBestMatch(foods, query)`: the four-tier cascade. -/
def findBestMatch (foods : List USDAFood) (query : String) : Option USDAFood :=
  if foods.isEmpty then none
  else
    match foods.find? (exactPred (normQuery query)) with
    | some f => some f
    | none =>
      match foods.find? (startsPred (normQuery query)) with
      | some f => some f
      | none =>
        match foods.find? (containsPred (normQuery query)) with
        | some f => some f
        | none => tier4 foods (normQuery query)

/-- The kJ fallback inside `extractCaloriesPer100g`: first kJ sample,
used when positive, converted by `Math.round(kJ / 4.184)`; else 0. -/
def kjFallback (f : USDAFood) : ℚ :=
  match f.foodNutrients.find? (fun n => n.nutrientId == ENERGY_KJ) with
  | some n => if 0 < n.value then jsRound (n.value / (4184 / 1000)) else 0
  | none => 0

/-- `extractCaloriesPer100g(food)`: first kcal sample if positive, else
the kJ fallback, else 0. -/
def extractCaloriesPer100g (f : USDAFood) : ℚ :=
  match f.foodNutrients.find? (fun n => n.nutrientId == ENERGY_KCAL) with
  | some n => if 0 < n.value then n.value else kjFallback f
  | none => kjFallback f

/-- `getNutrientValue` inside `extractMacronutrientsPer100g`:
`nutrient?.value || 0`. -/
def getNutrientValue (f : USDAFood) (nid : ℤ) : ℚ :=
  match f.foodNutrients.find? (fun n => n.nutrientId == nid) with
  | some n => n.value
  | none => 0

/-- JS `v || undefined` for a number: zero (falsy) becomes absent. -/
def optEmit (v : ℚ) : Option ℚ :=
  if v = 0 then none else some v

/-- Macronutrient block: required protein / fat / carbs plus optional
fiber / sugars / saturated fat (absent rather than zero). -/
structure MacroMap where
  protein : ℚ
  total_fat : ℚ
  carbohydrates : ℚ
  fiber : Option ℚ
  sugars : Option ℚ
  saturated_fat : Option ℚ
deriving DecidableEq

/-- `extractMacronutrientsPer100g(food)`. -/
def extractMacronutrientsPer100g (f : USDAFood) : MacroMap :=
  { protein := getNutrientValue f PROTEIN_ID
    total_fat := getNutrientValue f TOTAL_FAT_ID
    carbohydrates := getNutrientValue f CARBS_ID
    fiber := optEmit (getNutrientValue f FIBER_ID)
    sugars := optEmit (getNutrientValue f SUGARS_ID)
    saturated_fat := optEmit (getNutrientValue f SATURATED_FAT_ID) }

/-- The `...(x && { k: g(x) })` conditional-spread idiom: the field is
emitted only when the source value is present and truthy (non-zero). -/
def optScaled (x : Option ℚ) (g : ℚ → ℚ) : Option ℚ :=
  match x with
  | none => none
  | some v => if v = 0 then none else some (g v)

/-- The fall-through of `calculateServingSize`: first food measure's gram
weight if any, else the 100g default. -/
def fallbackMeasure (f : USDAFood) : ℚ :=
  match f.foodMeasures.head? with
  | some m => m.gramWeight
  | none => 100

/-- `calculateServingSize(food)`. -/
def calculateServingSize (f : USDAFood) : ℚ :=
  match f.servingSize with
  | some s =>
    if 0 < s then
      let unitLower := jsToLower (f.servingSizeUnit.getD "")
      if strIncludes unitLower "g" then s
      else
        match f.foodMeasures.find?
            (fun m => strIncludes (jsToLower m.measureUnitName) unitLower) with
        | some m => m.gramWeight * s
        | none => fallbackMeasure f
    else fallbackMeasure f
  | none => fallbackMeasure f

/-- The typed failures `calculateCalories` can raise. -/
inductive CalorieErr where
  | emptyDishName : CalorieErr
  | nonPositiveServings : CalorieErr
  | noFoodsFound : String → CalorieErr
  | noSuitableMatch : String → CalorieErr
  | missingEnergy : String → String → CalorieErr
  | upstream : String → CalorieErr
  | genericFailure : CalorieErr
deriving DecidableEq

/-- The `Error` message attached to each failure in the source. -/
def errMessage : CalorieErr → String
  | .emptyDishName => "Dish name cannot be empty"
  | .nonPositiveServings => "Servings must be a positive number"
  | .noFoodsFound d =>
      "No foods found for \"" ++ d ++ "\". Try a more specific or common food name."
  | .noSuitableMatch d =>
      "No suitable match found for \"" ++ d ++ "\". Try a different search term."
  | .missingEnergy d desc =>
      "No calorie information available for \"" ++ d ++ "\". The food \"" ++ desc
        ++ "\" does not have energy data."
  | .upstream m => m
  | .genericFailure =>
      "Unable to calculate calories. Please try again or use a different food name."

/-- The catch-block whitelist of `calculateCalories`: a message is
re-thrown unchanged exactly when it contains one of these substrings. -/
def isUserFriendly (msg : String) : Bool :=
  strIncludes msg "No foods found"
    || strIncludes msg "No suitable match found"
    || strIncludes msg "No calorie information available"
    || strIncludes msg "Dish name cannot be empty"
    || strIncludes msg "Servings must be positive"

/-- The catch block of `calculateCalories`: re-throw whitelisted errors,
wrap everything else into the generic failure. -/
def wrapErr (e : CalorieErr) : CalorieErr :=
  if isUserFriendly (errMessage e) then e else CalorieErr.genericFailure

/-- One entry of `ingredient_breakdown`. -/
structure IngredientEntry where
  name : String
  calories_per_100g : ℚ
  nutrients_per_100g : MacroMap
  serving_size_grams : ℚ
  data_type : String
  fdc_id : ℤ
  brand : Option String
  category : Option String
deriving DecidableEq

/-- The successful `CalorieResponse`. -/
structure CalorieResponse where
  dish_name : String
  servings : ℚ
  calories_per_serving : ℚ
  total_calories : ℚ
  nutrients_per_serving : MacroMap
  total_nutrients : MacroMap
  ingredient_breakdown : List IngredientEntry
  matched_name : String
  matched_fdc_id : ℤ
  matched_data_type : String
  matched_published_date : String
deriving DecidableEq

/-- The response built by `calculateCalories` once a match with usable
energy data is in hand; a direct transcription of the source's
arithmetic and conditional spreads. -/
def buildResponse (dishName : String) (servings : ℚ) (b : USDAFood) :
    CalorieResponse :=
  let caloriesPer100g := extractCaloriesPer100g b
  let m100 := extractMacronutrientsPer100g b
  let servingSizeGrams := calculateServingSize b
  let caloriesPerServing := jsRound (caloriesPer100g * servingSizeGrams / 100)
  let totalCalories := jsRound (caloriesPerServing * servings)
  let perServing : MacroMap :=
    { protein := round1 (m100.protein * servingSizeGrams / 100)
      total_fat := round1 (m100.total_fat * servingSizeGrams / 100)
      carbohydrates := round1 (m100.carbohydrates * servingSizeGrams / 100)
      fiber := optScaled m100.fiber (fun v => round1 (v * servingSizeGrams / 100))
      sugars := optScaled m100.sugars (fun v => round1 (v * servingSizeGrams / 100))
      saturated_fat :=
        optScaled m100.saturated_fat (fun v => round1 (v * servingSizeGrams / 100)) }
  let totals : MacroMap :=
    { protein := round1 (perServing.protein * servings)
      total_fat := round1 (perServing.total_fat * servings)
      carbohydrates := round1 (perServing.carbohydrates * servings)
      fiber := optScaled perServing.fiber (fun v => round1 (v * servings))
      sugars := optScaled perServing.sugars (fun v => round1 (v * servings))
      saturated_fat := optScaled perServing.saturated_fat (fun v => round1 (v * servings)) }
  { dish_name := dishName
    servings := servings
    calories_per_serving := caloriesPerServing
    total_calories := totalCalories
    nutrients_per_serving := perServing
    total_nutrients := totals
    ingredient_breakdown :=
      [{ name := b.description
         calories_per_100g := caloriesPer100g
         nutrients_per_100g :=
           { protein := round1 m100.protein
             total_fat := round1 m100.total_fat
             carbohydrates := round1 m100.carbohydrates
             fiber := optScaled m100.fiber round1
             sugars := optScaled m100.sugars round1
             saturated_fat := optScaled m100.saturated_fat round1 }
         serving_size_grams := servingSizeGrams
         data_type := b.dataType
         fdc_id := b.fdcId
         brand := b.brandOwner
         category := b.foodCategory }]
    matched_name := b.description
    matched_fdc_id := b.fdcId
    matched_data_type := b.dataType
    matched_published_date := b.publishedDate }

/-- Body of `calculateCalories` before its catch block. The outcome of
the single upstream fetch is passed in as an `Except` oracle. -/
def calcCore (dishName : String) (servings : ℚ)
    (fetch : Except String (List USDAFood)) : Except CalorieErr CalorieResponse :=
  if (jsTrim dishName).data.isEmpty then .error .emptyDishName
  else if servings ≤ 0 then .error .nonPositiveServings
  else
    match fetch with
    | .error m => .error (.upstream m)
    | .ok foods =>
      if foods.isEmpty then .error (.noFoodsFound dishName)
      else
        match findBestMatch foods dishName with
        | none => .error (.noSuitableMatch dishName)
        | some b =>
          if extractCaloriesPer100g b = 0 then
            .error (.missingEnergy dishName b.description)
          else .ok (buildResponse dishName servings b)

/-- `calculateCalories(dishName, servings)` with the fetch outcome made
explicit: the core body wrapped in the catch block. -/
def calculateCalories (dishName : String) (servings : ℚ)
    (fetch : Except String (List USDAFood)) : Except CalorieErr CalorieResponse :=
  match calcCore dishName servings fetch with
  | .ok r => .ok r
  | .error e => .error (wrapErr e)

/-! ### Concrete candidates used by closed theorems and witnesses -/

/-- The end-to-end scenario candidate of the spec: Survey record
"Chicken biryani", 180 kcal and 15.7 g protein per 100 g, declared
serving size 156 g. -/
def biryani : USDAFood :=
  { fdcId := 2710249
    description := "Chicken biryani"
    lowercaseDescription := "chicken biryani"
    dataType := "Survey (FNDDS)"
    foodNutrients := [⟨ENERGY_KCAL, 180⟩, ⟨PROTEIN_ID, 157 / 10⟩]
    foodMeasures := []
    servingSize := some 156
    servingSizeUnit := some "g"
    brandOwner := none
    foodCategory := none
    publishedDate := "2022-10-28" }

/-- A candidate whose `lowercaseDescription` field disagrees with its
`description`: it matches the query "x" only through that field. -/
def cexLowerOnly : USDAFood :=
  { fdcId := 1
    description := "y"
    lowercaseDescription := "x"
    dataType := "Branded"
    foodNutrients := []
    foodMeasures := []
    servingSize := none
    servingSizeUnit := none
    brandOwner := none
    foodCategory := none
    publishedDate := "" }

/-- A candidate whose description genuinely equals the query "x"
case-insensitively. -/
def cexDescMatch : USDAFood :=
  { fdcId := 2
    description := "X"
    lowercaseDescription := "x"
    dataType := "Branded"
    foodNutrients := []
    foodMeasures := []
    servingSize := none
    servingSizeUnit := none
    brandOwner := none
    foodCategory := none
    publishedDate := "" }

/-- A candidate with two kcal samples: the first is zero, the second
positive.  `extractCaloriesPer100g` only consults the first. -/
def cexTwoKcal : USDAFood :=
  { fdcId := 7
    description := "z"
    lowercaseDescription := "z"
    dataType := "Branded"
    foodNutrients := [⟨ENERGY_KCAL, 0⟩, ⟨ENERGY_KCAL, 50⟩]
    foodMeasures := []
    servingSize := none
    servingSizeUnit := none
    brandOwner := none
    foodCategory := none
    publishedDate := "" }

/-! ### Helper lemmas -/

theorem find_congr_pred {α} {p q : α → Bool} :
    ∀ l : List α, (∀ x ∈ l, p x = q x) → l.find? p = l.find? q := by
  intro l h
  induction l with
  | nil => rfl
  | cons a t ih =>
    have ha := h a (List.mem_cons_self a t)
    cases hp : p a with
    | true =>
      rw [List.find?_cons_of_pos _ hp, List.find?_cons_of_pos _ (ha ▸ hp)]
    | false =>
      rw [List.find?_cons_of_neg _ (by simp [hp]),
        List.find?_cons_of_neg _ (by simp [← ha, hp])]
      exact ih fun x hx => h x (List.mem_cons_of_mem _ hx)

theorem find_eq_some_of_uniq {α} {p : α → Bool} :
    ∀ l : List α, (l.filter p).length ≤ 1 → ∀ a ∈ l, p a = true →
      l.find? p = some a := by
  intro l
  induction l with
  | nil => intro _ a ha; exact absurd ha (List.not_mem_nil a)
  | cons x t ih =>
    intro hlen a ha hpa
    cases hx : p x with
    | true =>
      rw [List.find?_cons_of_pos _ hx]
      rcases List.mem_cons.mp ha with rfl | hat
      · rfl
      · exfalso
        have hmem : a ∈ t.filter p := List.mem_filter.mpr ⟨hat, hpa⟩
        have : 1 + 1 ≤ (List.filter p (x :: t)).length := by
          rw [List.filter_cons_of_pos hx, List.length_cons]
          have := List.length_pos.mpr (List.ne_nil_of_mem hmem)
          omega
        omega
    | false =>
      rw [List.find?_cons_of_neg _ (by simp [hx])]
      have hat : a ∈ t := by
        rcases List.mem_cons.mp ha with rfl | hat
        · rw [hpa] at hx; cases hx
        · exact hat
      refine ih ?_ a hat hpa
      rw [List.filter_cons_of_neg (by simp [hx])] at hlen
      exact hlen

/-! ### Claim C1 -/

/-- C1 (counterexample): with query "x", the list
`[cexLowerOnly, cexDescMatch]` contains a candidate whose description
equals the normalized query case-insensitively (`cexDescMatch`), yet the
selector returns `cexLowerOnly`, whose description does not — it matched
only through its inconsistent `lowercaseDescription` field. -/
theorem C1_counterexample :
    (∃ f ∈ [cexLowerOnly, cexDescMatch],
      jsToLower f.description = normQuery "x") ∧
    findBestMatch [cexLowerOnly, cexDescMatch] "x" = some cexLowerOnly ∧
    ¬ jsToLower cexLowerOnly.description = normQuery "x" := by
  refine ⟨⟨cexDescMatch, by decide, by decide⟩, by decide, by decide⟩

/-- C1 (amended): when every candidate's `lowercaseDescription` agrees
with its lowercased `description`, a candidate whose description equals
the normalized query case-insensitively forces the selector to return
the first such candidate in input order. -/
theorem C1_exact_match_wins (foods : List USDAFood) (query : String)
    (hcons : ∀ f ∈ foods, f.lowercaseDescription = jsToLower f.description)
    (hex : ∃ f ∈ foods, jsToLower f.description = normQuery query) :
    findBestMatch foods query =
      foods.find? (fun f => jsToLower f.description == normQuery query) := by
  obtain ⟨f0, hf0, hf0eq⟩ := hex
  have hne : foods.isEmpty = false := by
    cases foods with
    | nil => exact absurd hf0 (List.not_mem_nil f0)
    | cons a l => rfl
  have hpq : ∀ f ∈ foods, exactPred (normQuery query) f
      = (jsToLower f.description == normQuery query) := by
    intro f hf
    rw [exactPred, hcons f hf]
    exact Bool.or_self _
  have hfind : foods.find? (exactPred (normQuery query))
      = foods.find? (fun f => jsToLower f.description == normQuery query) :=
    find_congr_pred foods hpq
  have hnn : foods.find?
      (fun f => jsToLower f.description == normQuery query) ≠ none := by
    intro hnone
    exact absurd (beq_iff_eq.mpr hf0eq)
      (by simpa using List.find?_eq_none.mp hnone f0 hf0)
  cases hg : foods.find?
      (fun f => jsToLower f.description == normQuery query) with
  | none => exact absurd hg hnn
  | some g =>
    rw [findBestMatch, if_neg (by simp [hne]), hfind, hg]

/-- C1 witness: the amended theorem applied to a concrete consistent
candidate list. -/
theorem C1_exact_match_wins_witness :
    findBestMatch [biryani] "Chicken biryani" =
      [biryani].find?
        (fun f => jsToLower f.description == normQuery "Chicken biryani") :=
  C1_exact_match_wins [biryani] "Chicken biryani" (by decide)
    ⟨biryani, by decide, by decide⟩

/-! ### Claim C2 -/

/-- C2: tier precedence of `findBestMatch`.  Whenever the exact-match
tier finds a candidate it is the result; the starts-with tier decides
only if the exact tier found none; the contains tier only if both
earlier tiers found none; and the scored fallback runs only when all
three text tiers found none. -/
theorem C2_tier_precedence (foods : List USDAFood) (query : String) :
    (∀ f, foods.find? (exactPred (normQuery query)) = some f →
      findBestMatch foods query = some f) ∧
    (foods.find? (exactPred (normQuery query)) = none →
      ∀ f, foods.find? (startsPred (normQuery query)) = some f →
        findBestMatch foods query = some f) ∧
    (foods.find? (exactPred (normQuery query)) = none →
      foods.find? (startsPred (normQuery query)) = none →
      ∀ f, foods.find? (containsPred (normQuery query)) = some f →
        findBestMatch foods query = some f) ∧
    (foods.find? (exactPred (normQuery query)) = none →
      foods.find? (startsPred (normQuery query)) = none →
      foods.find? (containsPred (normQuery query)) = none →
      findBestMatch foods query = tier4 foods (normQuery query)) := by
  cases hfoods : foods with
  | nil =>
    refine ⟨?_, ?_, ?_, ?_⟩
    · intro f hf; simp at hf
    · intro _ f hf; simp at hf
    · intro _ _ f hf; simp at hf
    · intro _ _ _
      rw [findBestMatch]
      simp [tier4, pickBest]
  | cons a l =>
    have hne : (a :: l).isEmpty = false := rfl
    refine ⟨?_, ?_, ?_, ?_⟩
    · intro f hf
      rw [findBestMatch, if_neg (by simp), hf]
    · intro h1 f hf
      rw [findBestMatch, if_neg (by simp), h1, hf]
    · intro h1 h2 f hf
      rw [findBestMatch, if_neg (by simp), h1, h2, hf]
    · intro h1 h2 h3
      rw [findBestMatch, if_neg (by simp), h1, h2, h3]

/-- C2 witness: concrete instantiation on a one-candidate list where the
exact tier fires (first conjunct) and, on a mismatching query, where the
cascade reaches tier 4 (last conjunct). -/
theorem C2_tier_precedence_witness :
    findBestMatch [biryani] "chicken biryani" = some biryani ∧
    findBestMatch [cexTwoKcal] "quinoa" =
      tier4 [cexTwoKcal] (normQuery "quinoa") :=
  ⟨(C2_tier_precedence [biryani] "chicken biryani").1 biryani (by decide),
   (C2_tier_precedence [cexTwoKcal] "quinoa").2.2.2 (by decide) (by decide) (by decide)⟩

/-! ### Claim C3 -/

theorem pickBestAux_mem (xs : List (USDAFood × ℚ)) :
    ∀ cur, pickBestAux cur xs = cur ∨ pickBestAux cur xs ∈ xs := by
  induction xs with
  | nil => intro cur; exact Or.inl rfl
  | cons x t ih =>
    intro cur
    rw [pickBestAux]
    by_cases h : cur.2 < x.2
    · rw [if_pos h]
      rcases ih x with h' | h'
      · exact Or.inr (by rw [h']; exact List.mem_cons_self x t)
      · exact Or.inr (List.mem_cons_of_mem _ h')
    · rw [if_neg h]
      rcases ih cur with h' | h'
      · exact Or.inl h'
      · exact Or.inr (List.mem_cons_of_mem _ h')

theorem pickBestAux_max (xs : List (USDAFood × ℚ)) :
    ∀ cur, cur.2 ≤ (pickBestAux cur xs).2 ∧
      ∀ x ∈ xs, x.2 ≤ (pickBestAux cur xs).2 := by
  induction xs with
  | nil => intro cur; exact ⟨le_refl _, fun x hx => absurd hx (List.not_mem_nil x)⟩
  | cons y t ih =>
    intro cur
    rw [pickBestAux]
    by_cases h : cur.2 < y.2
    · rw [if_pos h]
      obtain ⟨h1, h2⟩ := ih y
      refine ⟨le_trans (le_of_lt h) h1, fun x hx => ?_⟩
      rcases List.mem_cons.mp hx with rfl | hxt
      · exact h1
      · exact h2 x hxt
    · rw [if_neg h]
      obtain ⟨h1, h2⟩ := ih cur
      refine ⟨h1, fun x hx => ?_⟩
      rcases List.mem_cons.mp hx with rfl | hxt
      · exact le_trans (not_lt.mp h) h1
      · exact h2 x hxt

/-- C3: in the tier-4 scored fallback, on any non-empty candidate list
there is a candidate `b` of maximal score whose score is exactly the
word-overlap fraction times 100 plus the data-type bonus
(Foundation +20, SR Legacy +15, Survey +10, Branded +0) plus +10 for a
positive kcal sample minus 5 for a description over 100 characters; the
fallback returns `b` when its score exceeds 20 and the first candidate
otherwise — never failing on a non-empty list. -/
theorem C3_scored_fallback (foods : List USDAFood) (nq : String)
    (h : foods ≠ []) :
    ∃ b ∈ foods,
      (∀ g ∈ foods, scoreFood (queryWordsOf nq) g ≤ scoreFood (queryWordsOf nq) b) ∧
      ((20 < scoreFood (queryWordsOf nq) b ∧ tier4 foods nq = some b) ∨
        (scoreFood (queryWordsOf nq) b ≤ 20 ∧ tier4 foods nq = foods.head?)) ∧
      (tier4 foods nq).isSome = true ∧
      (∀ f ∈ foods, scoreFood (queryWordsOf nq) f =
        ((((queryWordsOf nq).filter (fun q =>
              (jsSplitWS (jsToLower f.description).data).any
                (fun w => listIncl w q || listIncl q w))).length : ℚ)
            / ((queryWordsOf nq).length : ℚ)) * 100
          + (if f.dataType == "Foundation" then 20
             else if f.dataType == "SR Legacy" then 15
             else if f.dataType == "Survey (FNDDS)" then 10
             else 0)
          + (if f.foodNutrients.any
               (fun n => n.nutrientId == ENERGY_KCAL && decide (0 < n.value))
             then 10 else 0)
          - (if 100 < (jsToLower f.description).data.length then 5 else 0)) := by
  cases foods with
  | nil => exact absurd rfl h
  | cons a l =>
    have htier0 : tier4 (a :: l) nq =
        if 20 < (pickBestAux (a, scoreFood (queryWordsOf nq) a)
            (l.map (fun f => (f, scoreFood (queryWordsOf nq) f)))).2
        then some (pickBestAux (a, scoreFood (queryWordsOf nq) a)
            (l.map (fun f => (f, scoreFood (queryWordsOf nq) f)))).1
        else (a :: l).head? := rfl
    have hmem0 := pickBestAux_mem
      (l.map (fun f => (f, scoreFood (queryWordsOf nq) f)))
      (a, scoreFood (queryWordsOf nq) a)
    have hmax0 := pickBestAux_max
      (l.map (fun f => (f, scoreFood (queryWordsOf nq) f)))
      (a, scoreFood (queryWordsOf nq) a)
    generalize hE : pickBestAux (a, scoreFood (queryWordsOf nq) a)
        (l.map (fun f => (f, scoreFood (queryWordsOf nq) f))) = E
      at htier0 hmem0 hmax0
    have hmemS : E ∈ (a :: l).map (fun f => (f, scoreFood (queryWordsOf nq) f)) := by
      rcases hmem0 with h' | h'
      · rw [List.map_cons, h']; exact List.mem_cons_self _ _
      · rw [List.map_cons]; exact List.mem_cons_of_mem _ h'
    obtain ⟨b, hb, hbm⟩ := List.mem_map.mp hmemS
    have hE1 : E.1 = b := by rw [← hbm]
    have hE2 : E.2 = scoreFood (queryWordsOf nq) b := by rw [← hbm]
    obtain ⟨h1, h2⟩ := hmax0
    have hmax : ∀ g ∈ (a :: l),
        scoreFood (queryWordsOf nq) g ≤ scoreFood (queryWordsOf nq) b := by
      intro g hg
      rw [← hE2]
      rcases List.mem_cons.mp hg with rfl | hgl
      · exact h1
      · exact h2 (g, scoreFood (queryWordsOf nq) g) (List.mem_map.mpr ⟨g, hgl, rfl⟩)
    refine ⟨b, hb, hmax, ?_, ?_, ?_⟩
    · by_cases h20 : 20 < scoreFood (queryWordsOf nq) b
      · left
        refine ⟨h20, ?_⟩
        rw [htier0, hE2, if_pos h20, hE1]
      · right
        refine ⟨not_lt.mp h20, ?_⟩
        rw [htier0, hE2, if_neg h20]
    · rw [htier0]
      by_cases h20 : 20 < E.2
      · rw [if_pos h20]; rfl
      · rw [if_neg h20]; rfl
    · intro f _
      rfl

/-- C3 witness: the scored fallback applied to a concrete two-candidate
list. -/
theorem C3_scored_fallback_witness :
    ∃ b ∈ [cexTwoKcal, biryani],
      (∀ g ∈ [cexTwoKcal, biryani],
        scoreFood (queryWordsOf "chicken") g ≤ scoreFood (queryWordsOf "chicken") b) ∧
      ((20 < scoreFood (queryWordsOf "chicken") b ∧
          tier4 [cexTwoKcal, biryani] "chicken" = some b) ∨
        (scoreFood (queryWordsOf "chicken") b ≤ 20 ∧
          tier4 [cexTwoKcal, biryani] "chicken" = [cexTwoKcal, biryani].head?)) ∧
      (tier4 [cexTwoKcal, biryani] "chicken").isSome = true ∧
      (∀ f ∈ [cexTwoKcal, biryani], scoreFood (queryWordsOf "chicken") f =
        ((((queryWordsOf "chicken").filter (fun q =>
              (jsSplitWS (jsToLower f.description).data).any
                (fun w => listIncl w q || listIncl q w))).length : ℚ)
            / ((queryWordsOf "chicken").length : ℚ)) * 100
          + (if f.dataType == "Foundation" then 20
             else if f.dataType == "SR Legacy" then 15
             else if f.dataType == "Survey (FNDDS)" then 10
             else 0)
          + (if f.foodNutrients.any
               (fun n => n.nutrientId == ENERGY_KCAL && decide (0 < n.value))
             then 10 else 0)
          - (if 100 < (jsToLower f.description).data.length then 5 else 0)) :=
  C3_scored_fallback [cexTwoKcal, biryani] "chicken" (by decide)

/-! ### Pipeline inversion and energy lemmas -/

theorem calc_ok_inv (dish : String) (servings : ℚ)
    (fetch : Except String (List USDAFood)) (r : CalorieResponse)
    (h : calculateCalories dish servings fetch = .ok r) :
    ∃ foods b, fetch = .ok foods ∧ foods ≠ [] ∧
      (jsTrim dish).data.isEmpty = false ∧ ¬ servings ≤ 0 ∧
      findBestMatch foods dish = some b ∧
      extractCaloriesPer100g b ≠ 0 ∧ r = buildResponse dish servings b := by
  rw [calculateCalories] at h
  cases hc : calcCore dish servings fetch with
  | error e => rw [hc] at h; cases h
  | ok r' =>
    rw [hc] at h
    cases h
    rw [calcCore.eq_def] at hc
    by_cases h1 : (jsTrim dish).data.isEmpty = true
    · rw [if_pos h1] at hc; cases hc
    rw [if_neg h1] at hc
    by_cases h2 : servings ≤ 0
    · rw [if_pos h2] at hc; cases hc
    rw [if_neg h2] at hc
    cases fetch with
    | error m => simp only [] at hc; cases hc
    | ok foods =>
      simp only [] at hc
      by_cases h3 : foods.isEmpty = true
      · rw [if_pos h3] at hc; cases hc
      rw [if_neg h3] at hc
      cases hb : findBestMatch foods dish with
      | none => rw [hb] at hc; simp only [] at hc; cases hc
      | some b =>
        rw [hb] at hc
        simp only [] at hc
        by_cases h4 : extractCaloriesPer100g b = 0
        · rw [if_pos h4] at hc; cases hc
        rw [if_neg h4] at hc
        cases hc
        refine ⟨foods, b, rfl, ?_, ?_, h2, hb, h4, rfl⟩
        · intro hnil
          rw [hnil] at h3
          exact h3 rfl
        · exact eq_false_of_ne_true h1

theorem jsRound_nonneg (x : ℚ) (h : 0 ≤ x) : 0 ≤ jsRound x := by
  rw [jsRound_eq_round]
  have : (0 : ℤ) ≤ round x := by
    rw [round_eq]
    have : (0 : ℚ) ≤ x + 1 / 2 := by linarith
    exact Int.le_floor.mpr (by exact_mod_cast this)
  exact_mod_cast this

theorem kjFallback_nonneg (f : USDAFood) : 0 ≤ kjFallback f := by
  cases hn : f.foodNutrients.find? (fun n => n.nutrientId == ENERGY_KJ) with
  | none => simp only [kjFallback, hn]; exact le_refl 0
  | some n =>
    by_cases hv : 0 < n.value
    · simp only [kjFallback, hn, if_pos hv]
      exact jsRound_nonneg _ (by positivity)
    · simp only [kjFallback, hn, if_neg hv]
      exact le_refl 0

theorem extract_nonneg (f : USDAFood) : 0 ≤ extractCaloriesPer100g f := by
  cases hn : f.foodNutrients.find? (fun n => n.nutrientId == ENERGY_KCAL) with
  | none => simp only [extractCaloriesPer100g, hn]; exact kjFallback_nonneg f
  | some n =>
    by_cases hv : 0 < n.value
    · simp only [extractCaloriesPer100g, hn, if_pos hv]
      exact le_of_lt hv
    · simp only [extractCaloriesPer100g, hn, if_neg hv]
      exact kjFallback_nonneg f

/-! ### Claim C4 -/

/-- At most one kcal sample in the nutrient list. -/
def kcalUniq (f : USDAFood) : Prop :=
  (f.foodNutrients.filter (fun n => n.nutrientId == ENERGY_KCAL)).length ≤ 1

/-- At most one kJ sample in the nutrient list. -/
def kjUniq (f : USDAFood) : Prop :=
  (f.foodNutrients.filter (fun n => n.nutrientId == ENERGY_KJ)).length ≤ 1

theorem listIncl_of_isPrefixOf {s p : List Char} (h : p.isPrefixOf s = true) :
    listIncl s p = true := by
  cases s with
  | nil =>
    cases p with
    | nil => rfl
    | cons c t => simp [List.isPrefixOf] at h
  | cons c t => rw [listIncl, h, Bool.true_or]

theorem strIncludes_of_append (pre post : String) (p : String)
    (h : p.data.isPrefixOf pre.data = true) :
    strIncludes (pre ++ post) p = true := by
  apply listIncl_of_isPrefixOf
  rw [List.isPrefixOf_iff_prefix] at h ⊢
  rw [String.data_append]
  exact h.trans (List.prefix_append _ _)

theorem missingEnergy_is_friendly (d desc : String) :
    isUserFriendly (errMessage (.missingEnergy d desc)) = true := by
  rw [isUserFriendly, errMessage]
  have : strIncludes
      ("No calorie information available for \"" ++ (d ++ ("\". The food \"" ++
        (desc ++ "\" does not have energy data."))))
      "No calorie information available" = true := by
    apply strIncludes_of_append
    decide
  simp only [String.append_assoc] at this ⊢
  rw [this]
  simp

/-- C4 (counterexample): `cexTwoKcal` has a positive kcal sample (the
second one), yet the extractor returns 0 — because the first kcal sample
is 0 — and the pipeline fails with `MissingEnergyDataError` instead of
using the positive value 50. -/
theorem C4_counterexample :
    (∃ n ∈ cexTwoKcal.foodNutrients, n.nutrientId = ENERGY_KCAL ∧ 0 < n.value) ∧
    extractCaloriesPer100g cexTwoKcal = 0 ∧
    calculateCalories "z" 1 (.ok [cexTwoKcal]) =
      .error (.missingEnergy "z" "z") := by
  refine ⟨⟨⟨ENERGY_KCAL, 50⟩, by decide, rfl, by decide⟩, by decide, by decide⟩

/-- C4 (amended): restricted to candidates with at most one kcal sample
and at most one kJ sample — the shape of real USDA records — energy
extraction follows the claimed priority: a positive kcal sample is used
directly; else a positive kJ sample is converted by `round(kJ / 4.184)`;
else extraction yields 0, which makes the pipeline fail with
`MissingEnergyDataError` naming the matched candidate's description, so
every emitted breakdown carries `calories_per_100g > 0`. -/
theorem C4_energy_priority :
    (∀ f : USDAFood, kcalUniq f → ∀ n ∈ f.foodNutrients,
      n.nutrientId = ENERGY_KCAL → 0 < n.value →
      extractCaloriesPer100g f = n.value) ∧
    (∀ f : USDAFood, kjUniq f →
      (∀ n ∈ f.foodNutrients, n.nutrientId = ENERGY_KCAL → n.value ≤ 0) →
      ∀ n ∈ f.foodNutrients, n.nutrientId = ENERGY_KJ → 0 < n.value →
      extractCaloriesPer100g f = ((round (n.value / (4184 / 1000)) : ℤ) : ℚ)) ∧
    (∀ f : USDAFood,
      (∀ n ∈ f.foodNutrients, n.nutrientId = ENERGY_KCAL → n.value ≤ 0) →
      (∀ n ∈ f.foodNutrients, n.nutrientId = ENERGY_KJ → n.value ≤ 0) →
      extractCaloriesPer100g f = 0) ∧
    (∀ (dish : String) (servings : ℚ) (foods : List USDAFood) (b : USDAFood),
      (jsTrim dish).data.isEmpty = false → ¬ servings ≤ 0 →
      findBestMatch foods dish = some b → extractCaloriesPer100g b = 0 →
      calculateCalories dish servings (.ok foods) =
        .error (.missingEnergy dish b.description)) ∧
    (∀ (dish : String) (servings : ℚ) fetch (r : CalorieResponse),
      calculateCalories dish servings fetch = .ok r →
      ∀ en ∈ r.ingredient_breakdown, 0 < en.calories_per_100g) := by
  have hkcal_none : ∀ (f : USDAFood),
      (∀ n ∈ f.foodNutrients, n.nutrientId = ENERGY_KCAL → n.value ≤ 0) →
      extractCaloriesPer100g f = kjFallback f := by
    intro f hnp
    cases hn : f.foodNutrients.find? (fun n => n.nutrientId == ENERGY_KCAL) with
    | none => simp only [extractCaloriesPer100g, hn]
    | some n0 =>
      have hmem := List.mem_of_find?_eq_some hn
      have hpred := List.find?_some hn
      have hid : n0.nutrientId = ENERGY_KCAL := by
        exact beq_iff_eq.mp hpred
      have hle := hnp n0 hmem hid
      simp only [extractCaloriesPer100g, hn, if_neg (not_lt.mpr hle)]
  refine ⟨?_, ?_, ?_, ?_, ?_⟩
  · intro f huniq n hmem hid hpos
    have hfind : f.foodNutrients.find? (fun n => n.nutrientId == ENERGY_KCAL)
        = some n :=
      find_eq_some_of_uniq f.foodNutrients huniq n hmem (beq_iff_eq.mpr hid)
    simp only [extractCaloriesPer100g, hfind, if_pos hpos]
  · intro f huniq hnp n hmem hid hpos
    rw [hkcal_none f hnp]
    have hfind : f.foodNutrients.find? (fun n => n.nutrientId == ENERGY_KJ)
        = some n :=
      find_eq_some_of_uniq f.foodNutrients huniq n hmem (beq_iff_eq.mpr hid)
    simp only [kjFallback, hfind, if_pos hpos]
    exact jsRound_eq_round _
  · intro f hnp hnj
    rw [hkcal_none f hnp]
    cases hn : f.foodNutrients.find? (fun n => n.nutrientId == ENERGY_KJ) with
    | none => simp only [kjFallback, hn]
    | some n0 =>
      have hmem := List.mem_of_find?_eq_some hn
      have hpred := List.find?_some hn
      have hid : n0.nutrientId = ENERGY_KJ := beq_iff_eq.mp hpred
      have hle := hnj n0 hmem hid
      simp only [kjFallback, hn, if_neg (not_lt.mpr hle)]
  · intro dish servings foods b htrim hserv hb hcal
    have hne : foods.isEmpty = false := by
      cases foods with
      | nil => rw [findBestMatch] at hb; cases hb
      | cons a l => rfl
    rw [calculateCalories, calcCore.eq_def,
      if_neg (by simp [htrim]), if_neg hserv]
    simp only []
    rw [if_neg (by simp [hne]), hb]
    simp only [if_pos hcal]
    rw [wrapErr, if_pos (missingEnergy_is_friendly dish b.description)]
  · intro dish servings fetch r hok en hen
    obtain ⟨foods, b, -, -, -, -, -, hcal, hr⟩ :=
      calc_ok_inv dish servings fetch r hok
    rw [hr] at hen
    have hb : en.calories_per_100g = extractCaloriesPer100g b := by
      have := List.mem_singleton.mp hen
      rw [this]
    rw [hb]
    exact lt_of_le_of_ne (extract_nonneg b) (Ne.symm hcal)

/-- C4 witness: the amended priority applied to concrete candidates —
the kcal clause on `biryani` and the missing-energy pipeline clause on
`cexTwoKcal`. -/
theorem C4_energy_priority_witness :
    extractCaloriesPer100g biryani = 180 ∧
    calculateCalories "z" (3 / 2) (.ok [cexTwoKcal]) =
      .error (.missingEnergy "z" "z") :=
  ⟨C4_energy_priority.1 biryani (by rw [kcalUniq]; decide) ⟨ENERGY_KCAL, 180⟩
      (by decide) rfl (by decide),
   C4_energy_priority.2.2.2.1 "z" (3 / 2) [cexTwoKcal] cexTwoKcal (by decide)
      (by decide) (by decide) (by decide)⟩

/-! ### Claim C5 -/

/-- C5: every successful breakdown satisfies
`caloriesPerServing = round(caloriesPer100g * servingGrams / 100)` and
`totalCalories = round(caloriesPerServing * servings)`; in particular
`round(180 * 156 / 100) = 281`. -/
theorem C5_rounding :
    (∀ (dish : String) (servings : ℚ) fetch (r : CalorieResponse),
      calculateCalories dish servings fetch = .ok r →
      ∃ foods b, fetch = .ok foods ∧ findBestMatch foods dish = some b ∧
        r.calories_per_serving =
          ((round (extractCaloriesPer100g b * calculateServingSize b / 100) : ℤ) : ℚ) ∧
        r.total_calories =
          ((round (r.calories_per_serving * servings) : ℤ) : ℚ)) ∧
    (round ((180 : ℚ) * 156 / 100) : ℤ) = 281 := by
  constructor
  · intro dish servings fetch r hok
    obtain ⟨foods, b, hfetch, -, -, -, hb, -, hr⟩ :=
      calc_ok_inv dish servings fetch r hok
    refine ⟨foods, b, hfetch, hb, ?_, ?_⟩
    · have h1 : r.calories_per_serving =
          jsRound (extractCaloriesPer100g b * calculateServingSize b / 100) := by
        rw [hr]; exact rfl
      rw [h1, jsRound_eq_round]
    · have h2 : r.total_calories = jsRound (r.calories_per_serving * servings) := by
        rw [hr]; exact rfl
      rw [h2, jsRound_eq_round]
  · have h := jsRound_eq_round ((180 : ℚ) * 156 / 100)
    have hv : jsRound ((180 : ℚ) * 156 / 100) = 281 := by decide
    rw [hv] at h
    exact_mod_cast h.symm

/-- C5 witness: the rounding law instantiated on the end-to-end scenario
input. -/
theorem C5_rounding_witness :
    ∃ foods b, (Except.ok [biryani] : Except String (List USDAFood)) = .ok foods ∧
      findBestMatch foods "chicken biryani" = some b ∧
      (buildResponse "chicken biryani" 2 biryani).calories_per_serving =
        ((round (extractCaloriesPer100g b * calculateServingSize b / 100) : ℤ) : ℚ) ∧
      (buildResponse "chicken biryani" 2 biryani).total_calories =
        ((round ((buildResponse "chicken biryani" 2 biryani).calories_per_serving
          * 2) : ℤ) : ℚ) :=
  C5_rounding.1 "chicken biryani" 2 (.ok [biryani])
    (buildResponse "chicken biryani" 2 biryani) (by decide)

/-! ### Claim C6 -/

theorem buildResponse_fiber_none (d : String) (s : ℚ) (b : USDAFood)
    (h : (extractMacronutrientsPer100g b).fiber = none) :
    (buildResponse d s b).nutrients_per_serving.fiber = none ∧
    (buildResponse d s b).total_nutrients.fiber = none ∧
    ∀ en ∈ (buildResponse d s b).ingredient_breakdown,
      en.nutrients_per_100g.fiber = none := by
  have h1 : (buildResponse d s b).nutrients_per_serving.fiber =
      optScaled (extractMacronutrientsPer100g b).fiber
        (fun v => round1 (v * calculateServingSize b / 100)) := rfl
  have h2 : (buildResponse d s b).total_nutrients.fiber =
      optScaled ((buildResponse d s b).nutrients_per_serving.fiber)
        (fun v => round1 (v * s)) := rfl
  have hps : (buildResponse d s b).nutrients_per_serving.fiber = none := by
    rw [h1, h]; exact rfl
  refine ⟨hps, by rw [h2, hps]; exact rfl, ?_⟩
  intro en hen
  have he := List.mem_singleton.mp hen
  have h3 : en.nutrients_per_100g.fiber =
      optScaled (extractMacronutrientsPer100g b).fiber round1 := by
    rw [he]
  rw [h3, h]
  exact rfl

theorem buildResponse_sugars_none (d : String) (s : ℚ) (b : USDAFood)
    (h : (extractMacronutrientsPer100g b).sugars = none) :
    (buildResponse d s b).nutrients_per_serving.sugars = none ∧
    (buildResponse d s b).total_nutrients.sugars = none ∧
    ∀ en ∈ (buildResponse d s b).ingredient_breakdown,
      en.nutrients_per_100g.sugars = none := by
  have h1 : (buildResponse d s b).nutrients_per_serving.sugars =
      optScaled (extractMacronutrientsPer100g b).sugars
        (fun v => round1 (v * calculateServingSize b / 100)) := rfl
  have h2 : (buildResponse d s b).total_nutrients.sugars =
      optScaled ((buildResponse d s b).nutrients_per_serving.sugars)
        (fun v => round1 (v * s)) := rfl
  have hps : (buildResponse d s b).nutrients_per_serving.sugars = none := by
    rw [h1, h]; exact rfl
  refine ⟨hps, by rw [h2, hps]; exact rfl, ?_⟩
  intro en hen
  have he := List.mem_singleton.mp hen
  have h3 : en.nutrients_per_100g.sugars =
      optScaled (extractMacronutrientsPer100g b).sugars round1 := by
    rw [he]
  rw [h3, h]
  exact rfl

theorem buildResponse_satfat_none (d : String) (s : ℚ) (b : USDAFood)
    (h : (extractMacronutrientsPer100g b).saturated_fat = none) :
    (buildResponse d s b).nutrients_per_serving.saturated_fat = none ∧
    (buildResponse d s b).total_nutrients.saturated_fat = none ∧
    ∀ en ∈ (buildResponse d s b).ingredient_breakdown,
      en.nutrients_per_100g.saturated_fat = none := by
  have h1 : (buildResponse d s b).nutrients_per_serving.saturated_fat =
      optScaled (extractMacronutrientsPer100g b).saturated_fat
        (fun v => round1 (v * calculateServingSize b / 100)) := rfl
  have h2 : (buildResponse d s b).total_nutrients.saturated_fat =
      optScaled ((buildResponse d s b).nutrients_per_serving.saturated_fat)
        (fun v => round1 (v * s)) := rfl
  have hps : (buildResponse d s b).nutrients_per_serving.saturated_fat = none := by
    rw [h1, h]; exact rfl
  refine ⟨hps, by rw [h2, hps]; exact rfl, ?_⟩
  intro en hen
  have he := List.mem_singleton.mp hen
  have h3 : en.nutrients_per_100g.saturated_fat =
      optScaled (extractMacronutrientsPer100g b).saturated_fat round1 := by
    rw [he]
  rw [h3, h]
  exact rfl

/-- C6: in every successful breakdown, an optional macronutrient whose
source value is 0 (or whose identifier is absent, which reads as 0) is
omitted from the per-100g block, the per-serving block, and the totals;
and a macronutrient absent at the 100g level is absent at the
per-serving and total levels. -/
theorem C6_optional_omission :
    ∀ (dish : String) (servings : ℚ) fetch (r : CalorieResponse),
      calculateCalories dish servings fetch = .ok r →
      ∃ foods b, fetch = .ok foods ∧ findBestMatch foods dish = some b ∧
        ((getNutrientValue b FIBER_ID = 0 →
          r.nutrients_per_serving.fiber = none ∧
          r.total_nutrients.fiber = none ∧
          ∀ en ∈ r.ingredient_breakdown, en.nutrients_per_100g.fiber = none) ∧
         ((extractMacronutrientsPer100g b).fiber = none →
          r.nutrients_per_serving.fiber = none ∧
          r.total_nutrients.fiber = none)) ∧
        ((getNutrientValue b SUGARS_ID = 0 →
          r.nutrients_per_serving.sugars = none ∧
          r.total_nutrients.sugars = none ∧
          ∀ en ∈ r.ingredient_breakdown, en.nutrients_per_100g.sugars = none) ∧
         ((extractMacronutrientsPer100g b).sugars = none →
          r.nutrients_per_serving.sugars = none ∧
          r.total_nutrients.sugars = none)) ∧
        ((getNutrientValue b SATURATED_FAT_ID = 0 →
          r.nutrients_per_serving.saturated_fat = none ∧
          r.total_nutrients.saturated_fat = none ∧
          ∀ en ∈ r.ingredient_breakdown,
            en.nutrients_per_100g.saturated_fat = none) ∧
         ((extractMacronutrientsPer100g b).saturated_fat = none →
          r.nutrients_per_serving.saturated_fat = none ∧
          r.total_nutrients.saturated_fat = none)) := by
  intro dish servings fetch r hok
  obtain ⟨foods, b, hfetch, -, -, -, hb, -, hr⟩ :=
    calc_ok_inv dish servings fetch r hok
  subst hr
  have hfib : getNutrientValue b FIBER_ID = 0 →
      (extractMacronutrientsPer100g b).fiber = none := by
    intro h
    simp [extractMacronutrientsPer100g, optEmit, h]
  have hsug : getNutrientValue b SUGARS_ID = 0 →
      (extractMacronutrientsPer100g b).sugars = none := by
    intro h
    simp [extractMacronutrientsPer100g, optEmit, h]
  have hsat : getNutrientValue b SATURATED_FAT_ID = 0 →
      (extractMacronutrientsPer100g b).saturated_fat = none := by
    intro h
    simp [extractMacronutrientsPer100g, optEmit, h]
  refine ⟨foods, b, hfetch, hb, ⟨?_, ?_⟩, ⟨?_, ?_⟩, ⟨?_, ?_⟩⟩
  · intro h
    exact buildResponse_fiber_none dish servings b (hfib h)
  · intro h
    obtain ⟨a1, a2, -⟩ := buildResponse_fiber_none dish servings b h
    exact ⟨a1, a2⟩
  · intro h
    exact buildResponse_sugars_none dish servings b (hsug h)
  · intro h
    obtain ⟨a1, a2, -⟩ := buildResponse_sugars_none dish servings b h
    exact ⟨a1, a2⟩
  · intro h
    exact buildResponse_satfat_none dish servings b (hsat h)
  · intro h
    obtain ⟨a1, a2, -⟩ := buildResponse_satfat_none dish servings b h
    exact ⟨a1, a2⟩

/-- C6 witness: the omission law instantiated on the scenario candidate,
which has no fiber, sugars, or saturated-fat samples. -/
theorem C6_optional_omission_witness :
    ∃ foods b, (Except.ok [biryani] : Except String (List USDAFood)) = .ok foods ∧
      findBestMatch foods "chicken biryani" = some b ∧
      ((getNutrientValue b FIBER_ID = 0 →
        (buildResponse "chicken biryani" 2 biryani).nutrients_per_serving.fiber
          = none ∧
        (buildResponse "chicken biryani" 2 biryani).total_nutrients.fiber = none ∧
        ∀ en ∈ (buildResponse "chicken biryani" 2 biryani).ingredient_breakdown,
          en.nutrients_per_100g.fiber = none) ∧
       ((extractMacronutrientsPer100g b).fiber = none →
        (buildResponse "chicken biryani" 2 biryani).nutrients_per_serving.fiber
          = none ∧
        (buildResponse "chicken biryani" 2 biryani).total_nutrients.fiber = none)) ∧
      ((getNutrientValue b SUGARS_ID = 0 →
        (buildResponse "chicken biryani" 2 biryani).nutrients_per_serving.sugars
          = none ∧
        (buildResponse "chicken biryani" 2 biryani).total_nutrients.sugars = none ∧
        ∀ en ∈ (buildResponse "chicken biryani" 2 biryani).ingredient_breakdown,
          en.nutrients_per_100g.sugars = none) ∧
       ((extractMacronutrientsPer100g b).sugars = none →
        (buildResponse "chicken biryani" 2 biryani).nutrients_per_serving.sugars
          = none ∧
        (buildResponse "chicken biryani" 2 biryani).total_nutrients.sugars = none)) ∧
      ((getNutrientValue b SATURATED_FAT_ID = 0 →
        (buildResponse "chicken biryani" 2 biryani).nutrients_per_serving.saturated_fat
          = none ∧
        (buildResponse "chicken biryani" 2 biryani).total_nutrients.saturated_fat
          = none ∧
        ∀ en ∈ (buildResponse "chicken biryani" 2 biryani).ingredient_breakdown,
          en.nutrients_per_100g.saturated_fat = none) ∧
       ((extractMacronutrientsPer100g b).saturated_fat = none →
        (buildResponse "chicken biryani" 2 biryani).nutrients_per_serving.saturated_fat
          = none ∧
        (buildResponse "chicken biryani" 2 biryani).total_nutrients.saturated_fat
          = none)) :=
  C6_optional_omission "chicken biryani" 2 (.ok [biryani])
    (buildResponse "chicken biryani" 2 biryani) (by decide)

/-! ### Claims C7 and C10 -/

/-- A candidate with a declared serving size of 2 "cup" and an alternate
measure "cup, sliced" of 240 g. -/
def cexCup : USDAFood :=
  { fdcId := 3
    description := "apple"
    lowercaseDescription := "apple"
    dataType := "SR Legacy"
    foodNutrients := []
    foodMeasures := [⟨"cup, sliced", 240⟩]
    servingSize := some 2
    servingSizeUnit := some "cup"
    brandOwner := none
    foodCategory := none
    publishedDate := "" }

/-- A candidate with a declared serving size of 2 "kg". -/
def cexKg : USDAFood :=
  { fdcId := 4
    description := "rice"
    lowercaseDescription := "rice"
    dataType := "Branded"
    foodNutrients := []
    foodMeasures := [⟨"piece", 50⟩]
    servingSize := some 2
    servingSizeUnit := some "kg"
    brandOwner := none
    foodCategory := none
    publishedDate := "" }

/-- C7: the Serving Size Resolver applies its rules in priority order:
a positive declared size with a gram-denominated unit is used directly;
a positive declared size with a non-gram unit is multiplied by the gram
weight of the first alternate measure whose unit name contains the
declared unit; with no usable declared serving size the first alternate
measure's gram weight is used; and with neither declared size nor
measures the result is 100 grams. -/
theorem C7_serving_size_priority :
    (∀ (f : USDAFood) (s : ℚ), f.servingSize = some s → 0 < s →
      strIncludes (jsToLower (f.servingSizeUnit.getD "")) "g" = true →
      calculateServingSize f = s) ∧
    (∀ (f : USDAFood) (s : ℚ) (m : FoodMeasure), f.servingSize = some s → 0 < s →
      strIncludes (jsToLower (f.servingSizeUnit.getD "")) "g" = false →
      f.foodMeasures.find? (fun m' => strIncludes (jsToLower m'.measureUnitName)
        (jsToLower (f.servingSizeUnit.getD ""))) = some m →
      calculateServingSize f = m.gramWeight * s) ∧
    (∀ f : USDAFood,
      (f.servingSize = none ∨ (∃ s, f.servingSize = some s ∧ s ≤ 0) ∨
        (∃ s, f.servingSize = some s ∧ 0 < s ∧
          strIncludes (jsToLower (f.servingSizeUnit.getD "")) "g" = false ∧
          f.foodMeasures.find? (fun m' => strIncludes (jsToLower m'.measureUnitName)
            (jsToLower (f.servingSizeUnit.getD ""))) = none)) →
      ∀ m0, f.foodMeasures.head? = some m0 →
        calculateServingSize f = m0.gramWeight) ∧
    (∀ f : USDAFood, f.servingSize = none → f.foodMeasures = [] →
      calculateServingSize f = 100) := by
  have hfall : ∀ (f : USDAFood) (m0 : FoodMeasure),
      f.foodMeasures.head? = some m0 → fallbackMeasure f = m0.gramWeight := by
    intro f m0 hm0
    rw [fallbackMeasure, hm0]
  refine ⟨?_, ?_, ?_, ?_⟩
  · intro f s hs hpos hg
    simp only [calculateServingSize, hs, if_pos hpos, hg, if_true]
  · intro f s m hs hpos hg hm
    simp only [calculateServingSize, hs, if_pos hpos, hg, Bool.false_eq_true,
      if_false, hm]
  · intro f hcases m0 hm0
    rcases hcases with hnone | ⟨s, hs, hle⟩ | ⟨s, hs, hpos, hg, hfind⟩
    · simp only [calculateServingSize, hnone]
      exact hfall f m0 hm0
    · simp only [calculateServingSize, hs, if_neg (not_lt.mpr hle)]
      exact hfall f m0 hm0
    · simp only [calculateServingSize, hs, if_pos hpos, hg, Bool.false_eq_true,
        if_false, hfind]
      exact hfall f m0 hm0
  · intro f hnone hmeas
    simp only [calculateServingSize, hnone, fallbackMeasure, hmeas]
    rfl

/-- C7 witness: each priority rule exercised on a concrete candidate —
gram unit used directly (`biryani`), cup unit resolved through the
matching measure (`cexCup`), and the 100 g default (`cexTwoKcal`). -/
theorem C7_serving_size_priority_witness :
    calculateServingSize biryani = 156 ∧
    calculateServingSize cexCup = 240 * 2 ∧
    calculateServingSize cexTwoKcal = 100 :=
  ⟨C7_serving_size_priority.1 biryani 156 rfl (by decide) (by decide),
   C7_serving_size_priority.2.1 cexCup 2 ⟨"cup, sliced", 240⟩ rfl (by decide)
      (by decide) (by decide),
   C7_serving_size_priority.2.2.2 cexTwoKcal rfl rfl⟩

/-- C10 (implicit): a positive declared serving size is used
unconverted exactly on the code's notion of "gram-denominated" — the
lowercased unit containing the letter "g" — so "kg", "mg", and "gallon"
all count as grams; a zero-or-negative declared serving size makes the
resolver behave as if no serving size were declared at all. -/
theorem C10_gram_unit_detection :
    (∀ (f : USDAFood) (s : ℚ), f.servingSize = some s → 0 < s →
      strIncludes (jsToLower (f.servingSizeUnit.getD "")) "g" = true →
      calculateServingSize f = s) ∧
    (∀ (f : USDAFood) (s : ℚ) (u : String), f.servingSize = some s → 0 < s →
      f.servingSizeUnit = some u → (u = "kg" ∨ u = "mg" ∨ u = "gallon") →
      calculateServingSize f = s) ∧
    (∀ (f : USDAFood) (s : ℚ), f.servingSize = some s → s ≤ 0 →
      calculateServingSize f = calculateServingSize { f with servingSize := none }) := by
  have rule1 : ∀ (f : USDAFood) (s : ℚ), f.servingSize = some s → 0 < s →
      strIncludes (jsToLower (f.servingSizeUnit.getD "")) "g" = true →
      calculateServingSize f = s := by
    intro f s hs hpos hg
    simp only [calculateServingSize, hs, if_pos hpos, hg, if_true]
  refine ⟨rule1, ?_, ?_⟩
  · intro f s u hs hpos hu hcase
    apply rule1 f s hs hpos
    rw [hu]
    rcases hcase with rfl | rfl | rfl <;> decide
  · intro f s hs hle
    have e1 : calculateServingSize f = fallbackMeasure f := by
      simp only [calculateServingSize, hs, if_neg (not_lt.mpr hle)]
    have e2 : calculateServingSize { f with servingSize := none }
        = fallbackMeasure f := rfl
    rw [e1, e2]

/-- C10 witness: a "kg" declared unit used unconverted and a negative
declared size falling through to the serving-size-free behavior. -/
theorem C10_gram_unit_detection_witness :
    calculateServingSize cexKg = 2 ∧
    calculateServingSize { cexKg with servingSize := some (-1) } =
      calculateServingSize { { cexKg with servingSize := some (-1) } with
        servingSize := none } :=
  ⟨C10_gram_unit_detection.2.1 cexKg 2 "kg" rfl (by decide) rfl (Or.inl rfl),
   C10_gram_unit_detection.2.2 { cexKg with servingSize := some (-1) } (-1) rfl
      (by decide)⟩

/-! ### Claim C8 -/

/-- C8 (counterexample): on the end-to-end scenario — query
"chicken biryani", servings 2, single candidate `biryani` — the pipeline
succeeds but produces `calories_per_serving = 281` and
`total_calories = 562`, not the claimed 280 and 560:
`round(180 * 156 / 100) = round(280.8) = 281`. -/
theorem C8_counterexample :
    calculateCalories "chicken biryani" 2 (.ok [biryani]) =
      .ok (buildResponse "chicken biryani" 2 biryani) ∧
    (buildResponse "chicken biryani" 2 biryani).calories_per_serving ≠ 280 ∧
    (buildResponse "chicken biryani" 2 biryani).total_calories ≠ 560 := by
  refine ⟨by decide, by decide, by decide⟩

/-- C8 (amended): the scenario matches at tier 1 (exact) and yields
`calories_per_serving = 281`, `total_calories = 562`, and
`macronutrients_per_serving.protein = 24.5`. -/
theorem C8_end_to_end :
    [biryani].find? (exactPred (normQuery "chicken biryani")) = some biryani ∧
    findBestMatch [biryani] "chicken biryani" = some biryani ∧
    calculateCalories "chicken biryani" 2 (.ok [biryani]) =
      .ok (buildResponse "chicken biryani" 2 biryani) ∧
    (buildResponse "chicken biryani" 2 biryani).calories_per_serving = 281 ∧
    (buildResponse "chicken biryani" 2 biryani).total_calories = 562 ∧
    (buildResponse "chicken biryani" 2 biryani).nutrients_per_serving.protein
      = 49 / 2 := by
  refine ⟨by decide, by decide, by decide, by decide, by decide, by decide⟩

/-! ### Claim C9 -/

/-- C9: input validation happens before the fetch — an empty or
whitespace-only dish name fails identically whatever the fetch outcome,
with the empty-dish-name error surviving the catch block; but the
non-positive-servings error, though also raised before the fetch, is
replaced by the generic failure, because the catch-block whitelist looks
for the substring "Servings must be positive" which does not occur in
the thrown message "Servings must be a positive number". -/
theorem C9_input_validation :
    calculateCalories "" 1 (.ok [biryani]) = .error .emptyDishName ∧
    calculateCalories "   " 1 (.error "upstream down") = .error .emptyDishName ∧
    calcCore "rice" 0 (.ok [biryani]) = .error .nonPositiveServings ∧
    calcCore "rice" 0 (.error "upstream down") = .error .nonPositiveServings ∧
    calculateCalories "rice" 0 (.ok [biryani]) = .error .genericFailure ∧
    calculateCalories "rice" 0 (.error "upstream down") = .error .genericFailure ∧
    strIncludes (errMessage .nonPositiveServings) "Servings must be positive"
      = false ∧
    isUserFriendly (errMessage .emptyDishName) = true := by
  refine ⟨by decide, by decide, by decide, by decide, by decide, by decide,
    by decide, by decide⟩
